import Mathlib

/-!
Verification of the shuairan VMM control core against its specification.

The definitions below are a shallow embedding of the Rust sources:
  - src/utils/src/json.rs   (hand-written JSON value type and its take accessors)
  - src/utils/src/log.rs    (LogLevel)
  - src/vmm/src/error.rs    (Error taxonomy and the From conversion for kvm errors)
  - src/vmm/src/config.rs   (CpuConfig, MemoryConfig, DeviceConfig, OsConfig,
                             LogConfig, VmmConfig, VmConfig and their from constructors)
  - src/vmm/src/vm.rs       (VmStatus, Vm, Vm::new)
  - src/vmm/src/vcpu.rs     (VcpuStatus, VcpuMsg, Vcpu, VcpuManager, VcpuManager::new)
  - src/vmm/src/lib.rs      (Vmm, Vmm::new)

Modelling conventions:
  - Rust numeric types are modelled as Nat (u32, u64, file descriptors, channel
    ids) or Int (i32 errnos, JSON numbers); overflow-relevant casts are explicit.
  - JSON numbers are f64 in the source; they are modelled on their integral
    values as Int, and the Rust saturating cast f64 as u32 is asU32 below.
  - A HashMap with unique keys is modelled as an association list; Json::take
    removes the entry for a key and returns it.
  - Fallible Rust functions returning Result are modelled with Except.
  - Kernel ioctl calls (Kvm::new, create_vm, create_vcpu) are oracle
    parameters: the caller supplies the outcome of each call.
  - mpsc channels are modelled by a fresh-id allocator: every channel call
    returns a fresh id carried by both endpoints of the new channel.
  - Stateful construction (VcpuManager::new) additionally returns a trace of
    the kernel-handle and thread events it performed, in order.
-/

set_option autoImplicit false

namespace Shuairan

/-- LogLevel from utils/src/log.rs. -/
inductive LogLevel where
  | Debug
  | Info
  | Warn
  | Error
  deriving DecidableEq, Repr

/-- Json value type from utils/src/json.rs. Numbers are f64 in the source and
are modelled here on their integral values; objects are HashMaps with unique
keys, modelled as association lists. -/
inductive Json where
  | null
  | boolean (b : Bool)
  | number (v : Int)
  | string (s : String)
  | array (xs : List Json)
  | object (kvs : List (String × Json))

/-- Remove the first entry with the given key from an association list,
returning the removed value (if any) and the remaining list. This models
HashMap::remove for maps with unique keys. -/
def takeEntry (key : String) : List (String × Json) → Option Json × List (String × Json)
  | [] => (none, [])
  | (k, v) :: rest =>
    if k = key then (some v, rest)
    else
      match takeEntry key rest with
      | (r, rest1) => (r, (k, v) :: rest1)

/-- Json::take from json.rs: on an object, remove and return the value stored
at the key; on every other variant return none and leave the value unchanged.
The Rust method mutates self; the new self is the second component. -/
def Json.take (j : Json) (key : String) : Option Json × Json :=
  match j with
  | Json.object kvs =>
    match takeEntry key kvs with
    | (r, kvs1) => (r, Json.object kvs1)
  | other => (none, other)

/-- Json::take_number from json.rs: take the value at the key and keep it only
when it is a Number. A present entry of any other variant is still removed but
yields none. -/
def Json.take_number (j : Json) (key : String) : Option Int × Json :=
  match j.take key with
  | (some (Json.number v), j1) => (some v, j1)
  | (_, j1) => (none, j1)

/-- Json::take_string from json.rs. -/
def Json.take_string (j : Json) (key : String) : Option String × Json :=
  match j.take key with
  | (some (Json.string s), j1) => (some s, j1)
  | (_, j1) => (none, j1)

/-- Json::take_object from json.rs: the taken value is kept only when it is an
Object, and is returned still wrapped as a Json object. -/
def Json.take_object (j : Json) (key : String) : Option Json × Json :=
  match j.take key with
  | (some (Json.object v), j1) => (some (Json.object v), j1)
  | (_, j1) => (none, j1)

/-- Json::take_array from json.rs. -/
def Json.take_array (j : Json) (key : String) : Option (List Json) × Json :=
  match j.take key with
  | (some (Json.array v), j1) => (some v, j1)
  | (_, j1) => (none, j1)

/-- Error taxonomy from vmm/src/error.rs. IoctlError carries (errno, info). -/
inductive Error where
  | MissingConfig (s : String)
  | IllegalConfig (s : String)
  | ParsingError (s : String)
  | IOError (s : String)
  | IoctlError (errno : Int) (msg : String)
  deriving DecidableEq, Repr

/-- Outcome of a kvm ioctl wrapper call (external kvm_ioctls::Error): an errno
with its rendered message. -/
structure KvmErr where
  errno : Int
  msg : String
  deriving DecidableEq, Repr

/-- From kvm_ioctls::Error for Error in vmm/src/error.rs: the ioctl error is
converted to IoctlError(errno, message). -/
def Error.fromKvm (e : KvmErr) : Error :=
  Error.IoctlError e.errno e.msg

/-- MAX_VCPU_DEFAULT from vmm/src/config.rs: with MAXSMP, 8192 cpus are allowed. -/
def MAX_VCPU_DEFAULT : Nat := 8192

/-- Rust saturating cast from an (integral) f64 to u32: negative values clamp
to 0, values above u32::MAX clamp to u32::MAX, everything else is unchanged. -/
def asU32 (v : Int) : Nat :=
  if v < 0 then 0 else min v.toNat 4294967295

/-- CpuConfig from vmm/src/config.rs. -/
structure CpuConfig where
  count : Nat
  deriving DecidableEq, Repr

/-- CpuConfig::from in vmm/src/config.rs: the required helper turns a missing
or non-number count into MissingConfig "cpu.count"; a count of 0 or above
MAX_VCPU_DEFAULT is IllegalConfig with the value rendered into the path. -/
def CpuConfig.fromJson (json : Json) : Except Error CpuConfig :=
  match json.take_number "count" with
  | (none, _) => Except.error (Error.MissingConfig "cpu.count")
  | (some v, _) =>
    let count := asU32 v
    if count = 0 ∨ count > MAX_VCPU_DEFAULT then
      Except.error (Error.IllegalConfig ("cpu.count=" ++ toString count))
    else
      Except.ok { count := count }

/-- MemoryConfig from vmm/src/config.rs. -/
structure MemoryConfig where
  size_mib : Nat
  deriving DecidableEq, Repr

/-- MemoryConfig::from in vmm/src/config.rs. -/
def MemoryConfig.fromJson (json : Json) : Except Error MemoryConfig :=
  match json.take_number "size_mib" with
  | (none, _) => Except.error (Error.MissingConfig "memory.size_mib")
  | (some v, _) =>
    let size_mib := asU32 v
    if size_mib = 0 then
      Except.error (Error.IllegalConfig "memory.size_mib")
    else
      Except.ok { size_mib := size_mib }

/-- DeviceConfig from vmm/src/config.rs. -/
structure DeviceConfig where
  driver : String
  source : Option String
  deriving DecidableEq, Repr

/-- DeviceConfig::from in vmm/src/config.rs. -/
def DeviceConfig.fromJson (json : Json) : Except Error DeviceConfig :=
  match json.take_string "driver" with
  | (none, _) => Except.error (Error.MissingConfig "device.driver")
  | (some driver, json1) =>
    match json1.take_string "source" with
    | (source, _) => Except.ok { driver := driver, source := source }

/-- OsConfig from vmm/src/config.rs. -/
structure OsConfig where
  kernel : Option String
  initrd : Option String
  rootfs : Option String
  cmdline : Option String
  deriving DecidableEq, Repr

/-- OsConfig::from in vmm/src/config.rs. -/
def OsConfig.fromJson (json : Json) : Except Error OsConfig :=
  match json.take_string "kernel" with
  | (kernel, json1) =>
    match json1.take_string "initrd" with
    | (initrd, json2) =>
      match json2.take_string "rootfs" with
      | (rootfs, json3) =>
        match json3.take_string "cmdline" with
        | (cmdline, _) =>
          Except.ok { kernel := kernel, initrd := initrd,
                      rootfs := rootfs, cmdline := cmdline }

/-- LogConfig from vmm/src/config.rs. -/
structure LogConfig where
  level : Option LogLevel
  path : Option String
  deriving DecidableEq, Repr

/-- Level-string mapping inside LogConfig::from in vmm/src/config.rs: the
recognized spellings are matched exactly, and, per the source comment, any
unrecognized string is amended to the Debug level. -/
def levelOfString (l : String) : LogLevel :=
  if l = "Debug" ∨ l = "debug" then LogLevel.Debug
  else if l = "Info" ∨ l = "info" then LogLevel.Info
  else if l = "Warn" ∨ l = "warn" then LogLevel.Warn
  else if l = "Error" ∨ l = "error" then LogLevel.Error
  else LogLevel.Debug

/-- LogConfig::from in vmm/src/config.rs: both fields are optional takes; the
level string, when present, is mapped by levelOfString. -/
def LogConfig.fromJson (json : Json) : Except Error LogConfig :=
  match json.take_string "level" with
  | (lvl, json1) =>
    match json1.take_string "path" with
    | (path, _) =>
      Except.ok { level := Option.map levelOfString lvl, path := path }

/-- VmmConfig from vmm/src/config.rs. -/
structure VmmConfig where
  log : Option LogConfig
  deriving DecidableEq, Repr

/-- VmmConfig::from in vmm/src/config.rs. -/
def VmmConfig.fromJson (json : Json) : Except Error VmmConfig :=
  match json.take_object "log" with
  | (some obj, _) =>
    match LogConfig.fromJson obj with
    | Except.error e => Except.error e
    | Except.ok lc => Except.ok { log := some lc }
  | (none, _) => Except.ok { log := none }

/-- VmConfig from vmm/src/config.rs. -/
structure VmConfig where
  cpu : CpuConfig
  memory : MemoryConfig
  device : List DeviceConfig
  os : OsConfig
  vmm : Option VmmConfig
  deriving DecidableEq, Repr

/-- Device-array elaboration inside VmConfig::from: each array element is
parsed in order, stopping at the first error. -/
def deviceListFromJson : List Json → Except Error (List DeviceConfig)
  | [] => Except.ok []
  | d :: rest =>
    match DeviceConfig.fromJson d with
    | Except.error e => Except.error e
    | Except.ok dc =>
      match deviceListFromJson rest with
      | Except.error e => Except.error e
      | Except.ok dcs => Except.ok (dc :: dcs)

/-- VmConfig::from in vmm/src/config.rs: cpu, memory, device and os are
required sections; vmm is optional. -/
def VmConfig.fromJson (json : Json) : Except Error VmConfig :=
  match json.take_object "cpu" with
  | (none, _) => Except.error (Error.MissingConfig ".cpu")
  | (some cpuObj, json1) =>
    match CpuConfig.fromJson cpuObj with
    | Except.error e => Except.error e
    | Except.ok cpu =>
      match json1.take_object "memory" with
      | (none, _) => Except.error (Error.MissingConfig ".memory")
      | (some memObj, json2) =>
        match MemoryConfig.fromJson memObj with
        | Except.error e => Except.error e
        | Except.ok memory =>
          match json2.take_array "device" with
          | (none, _) => Except.error (Error.MissingConfig ".device")
          | (some devs, json3) =>
            match deviceListFromJson devs with
            | Except.error e => Except.error e
            | Except.ok device =>
              match json3.take_object "os" with
              | (none, _) => Except.error (Error.MissingConfig ".os")
              | (some osObj, json4) =>
                match OsConfig.fromJson osObj with
                | Except.error e => Except.error e
                | Except.ok os =>
                  match json4.take_object "vmm" with
                  | (some vmmObj, _) =>
                    match VmmConfig.fromJson vmmObj with
                    | Except.error e => Except.error e
                    | Except.ok vc =>
                      Except.ok { cpu := cpu, memory := memory, device := device,
                                  os := os, vmm := some vc }
                  | (none, _) =>
                    Except.ok { cpu := cpu, memory := memory, device := device,
                                os := os, vmm := none }

/-- External vm_memory::mmap::GuestMemoryMmap: a guest physical address space
made of mapped regions, each a (start, size-in-bytes) pair. The no-argument
constructor used by the source creates a guest memory with no regions. -/
structure GuestMemoryMmap where
  regions : List (Nat × Nat)
  deriving DecidableEq, Repr

/-- GuestMemoryMmap::new() from the external vm-memory crate: it takes no
size argument and produces an empty guest memory (no mapped regions). -/
def GuestMemoryMmap.new : GuestMemoryMmap :=
  { regions := [] }

/-- Total number of mapped guest bytes. -/
def GuestMemoryMmap.totalBytes (m : GuestMemoryMmap) : Nat :=
  (m.regions.map Prod.snd).sum

/-- VmStatus from vmm/src/vm.rs. -/
inductive VmStatus where
  | Epoch
  | Paused
  | Running
  deriving DecidableEq, Repr

/-- Vm from vmm/src/vm.rs. The VmFd kernel handle is modelled as a Nat. -/
structure Vm where
  fd : Nat
  config : VmConfig
  memory : GuestMemoryMmap
  status : VmStatus
  deriving DecidableEq, Repr

/-- Vm::new from vmm/src/vm.rs: stores the handle and the configuration,
sets memory to GuestMemoryMmap::new() and status to Epoch, and returns Ok. -/
def Vm.new (fd : Nat) (config : VmConfig) : Except Error Vm :=
  Except.ok { fd := fd, config := config,
              memory := GuestMemoryMmap.new, status := VmStatus.Epoch }

/-- Status stored in a successfully constructed Vm, none on failure. -/
def vmStatusOf (r : Except Error Vm) : Option VmStatus :=
  match r with
  | Except.ok vm => some vm.status
  | Except.error _ => none

/-- Guest memory stored in a successfully constructed Vm, none on failure. -/
def vmMemoryOf (r : Except Error Vm) : Option GuestMemoryMmap :=
  match r with
  | Except.ok vm => some vm.memory
  | Except.error _ => none

/-- Kvm system handle from the external kvm_ioctls crate, modelled as the
underlying system fd. -/
structure Kvm where
  sysFd : Nat
  deriving DecidableEq, Repr

/-- Vmm from vmm/src/lib.rs. -/
structure Vmm where
  config : Option VmmConfig
  kvm : Kvm
  vm : Vm
  deriving DecidableEq, Repr

/-- Vmm::new from vmm/src/lib.rs. The two kernel calls Kvm::new() and
kvm.create_vm() are oracle parameters. Struct-literal fields are evaluated
top to bottom in Rust, so config.vmm.take() runs first: it moves the vmm
section out (leaving None in the configuration) before Vm::new receives the
configuration by value. -/
def Vmm.new (kvmNew : Except KvmErr Kvm) (createVm : Kvm → Except KvmErr Nat)
    (config : VmConfig) : Except Error Vmm :=
  match kvmNew with
  | Except.error e => Except.error (Error.fromKvm e)
  | Except.ok kvm =>
    match createVm kvm with
    | Except.error e => Except.error (Error.fromKvm e)
    | Except.ok fd =>
      let takenVmm := config.vmm
      let config1 := { config with vmm := none }
      match Vm.new fd config1 with
      | Except.error e => Except.error e
      | Except.ok vm => Except.ok { config := takenVmm, kvm := kvm, vm := vm }

/-- VcpuStatus from vmm/src/vcpu.rs. -/
inductive VcpuStatus where
  | Epoch
  | Paused
  | Running
  deriving DecidableEq, Repr

/-- VcpuMsg from vmm/src/vcpu.rs. -/
inductive VcpuMsg where
  | Run
  | RunReply (s : VcpuStatus)
  | Exit
  deriving DecidableEq, Repr

/-- Vcpu from vmm/src/vcpu.rs: id, kernel handle, the receiver endpoint of its
input channel and the sender endpoint of its output channel. Kernel handles
and channel endpoints are modelled as Nat ids. -/
structure Vcpu where
  id : Nat
  fd : Nat
  ch_in_recv : Nat
  ch_out_send : Nat
  deriving DecidableEq, Repr

/-- Join handle of a spawned vCPU thread; it records the Vcpu value moved
into the thread closure, which the thread runs via Vcpu::run. -/
structure ThreadHandle where
  vcpu : Vcpu
  deriving DecidableEq, Repr

/-- VcpuManager from vmm/src/vcpu.rs: join handles, input-channel senders and
output-channel receivers; position i in every list belongs to vCPU i. -/
structure VcpuManager where
  config : CpuConfig
  threads : List ThreadHandle
  chs_in_send : List Nat
  chs_out_recv : List Nat
  deriving DecidableEq, Repr

/-- mpsc::channel(), modelled by a fresh-id allocator: both endpoints of the
new channel carry the id ctr; the next free id is ctr + 1. The first
component of the result is (sender, receiver). -/
def channel (ctr : Nat) : (Nat × Nat) × Nat :=
  ((ctr, ctr), ctr + 1)

/-- Vcpu::new from vmm/src/vcpu.rs: creates the output channel and returns the
Vcpu together with the receiver end of that channel, threading the channel-id
allocator. -/
def Vcpu.new (id fd ch_in_recv ctr : Nat) : (Vcpu × Nat) × Nat :=
  match channel ctr with
  | ((ch_out_send, ch_out_recv), ctr1) =>
    (({ id := id, fd := fd, ch_in_recv := ch_in_recv,
        ch_out_send := ch_out_send }, ch_out_recv), ctr1)

/-- Outcome of running a thread body to completion: it returns normally or
panics (unwinds) with a message. -/
inductive ThreadOutcome where
  | returned
  | panicked (msg : String)
  deriving DecidableEq, Repr

/-- Vcpu::run from vmm/src/vcpu.rs. Its body in the source is a todo placeholder,
which panics immediately with the message below: the thread reads no control
message and sends no reply before unwinding. -/
def Vcpu.run (vcpu : Vcpu) : ThreadOutcome :=
  ThreadOutcome.panicked "not yet implemented"

/-- Observable events performed by VcpuManager::new, in program order:
kernel vCPU handle creation for index i, spawning the thread for index i,
and joining the thread for index i (never performed by new). -/
inductive Event where
  | createVcpu (i : Nat)
  | spawnThread (i : Nat)
  | joinThread (i : Nat)
  deriving DecidableEq, Repr

/-- Loop body of VcpuManager::new over the remaining indices: for each index,
call create_vcpu (propagating its error), create the input channel, build the
Vcpu (which creates the output channel), spawn the thread, and record the
sender, receiver and join handle. Also returns the event trace and the final
channel counter. -/
def VcpuManager.newLoop (create_vcpu : Nat → Except KvmErr Nat) :
    List Nat → Nat →
    Except Error (List ThreadHandle × List Nat × List Nat) × List Event × Nat
  | [], ctr => (Except.ok ([], [], []), [], ctr)
  | i :: rest, ctr =>
    match create_vcpu i with
    | Except.error e => (Except.error (Error.fromKvm e), [Event.createVcpu i], ctr)
    | Except.ok fd =>
      match channel ctr with
      | ((ch_in_send, ch_in_recv), ctr1) =>
        match Vcpu.new i fd ch_in_recv ctr1 with
        | ((vcpu, ch_out_recv), ctr2) =>
          match VcpuManager.newLoop create_vcpu rest ctr2 with
          | (res, evs, ctrF) =>
            (Except.map
               (fun t => ({ vcpu := vcpu } :: t.1, ch_in_send :: t.2.1,
                          ch_out_recv :: t.2.2)) res,
             Event.createVcpu i :: Event.spawnThread i :: evs,
             ctrF)

/-- VcpuManager::new from vmm/src/vcpu.rs: iterate i over 0..count with the
loop above, starting the channel-id allocator at 0, and on success pack the
three lists with the configuration. The second component is the event trace. -/
def VcpuManager.new (create_vcpu : Nat → Except KvmErr Nat) (config : CpuConfig) :
    Except Error VcpuManager × List Event :=
  match VcpuManager.newLoop create_vcpu (List.range config.count) 0 with
  | (Except.error e, evs, _) => (Except.error e, evs)
  | (Except.ok (ts, ss, rs), evs, _) =>
    (Except.ok { config := config, threads := ts,
                 chs_in_send := ss, chs_out_recv := rs }, evs)

/-! Theorems. -/

/-- C7: for every JSON cpu object whose count field is a number, a resulting
count of 0 or above MAX_VCPU (8192) yields IllegalConfig naming cpu.count and
its value, and a count in 1..8192 succeeds with exactly that count. -/
theorem cpuConfig_count_validation (json : Json) (v : Int)
    (h : (json.take_number "count").1 = some v) :
    (asU32 v = 0 ∨ asU32 v > MAX_VCPU_DEFAULT →
      CpuConfig.fromJson json =
        Except.error (Error.IllegalConfig ("cpu.count=" ++ toString (asU32 v)))) ∧
    (1 ≤ asU32 v → asU32 v ≤ MAX_VCPU_DEFAULT →
      CpuConfig.fromJson json = Except.ok { count := asU32 v }) := by
  unfold CpuConfig.fromJson
  cases htn : json.take_number "count" with
  | mk o j1 =>
    rw [htn] at h
    simp only at h
    subst h
    constructor
    · intro hbad
      simp [hbad]
    · intro h1 h2
      have hnot : ¬ (asU32 v = 0 ∨ asU32 v > MAX_VCPU_DEFAULT) := by omega
      simp [hnot]

/-- Witness for C7 at the concrete object with count 4. -/
theorem cpuConfig_count_validation_witness :
    CpuConfig.fromJson (Json.object [("count", Json.number 4)]) =
      Except.ok { count := asU32 4 } :=
  (cpuConfig_count_validation (Json.object [("count", Json.number 4)]) 4 rfl).2
    (by decide) (by decide)

/-- C10: a count field that is present but is not a JSON number is reported by
CpuConfig parsing as MissingConfig "cpu.count", never as IllegalConfig. -/
theorem cpuConfig_wrong_type_missing (json : Json) (w : Json)
    (htake : (json.take "count").1 = some w)
    (hnum : ∀ x, w ≠ Json.number x) :
    CpuConfig.fromJson json = Except.error (Error.MissingConfig "cpu.count") := by
  unfold CpuConfig.fromJson Json.take_number
  cases htk : json.take "count" with
  | mk o j1 =>
    rw [htk] at htake
    simp only at htake
    subst htake
    cases w with
    | number x => exact absurd rfl (hnum x)
    | null => simp
    | boolean b => simp
    | string s => simp
    | array xs => simp
    | object kvs => simp

/-- Witness for C10 at a cpu object whose count is the string "four". -/
theorem cpuConfig_wrong_type_missing_witness :
    CpuConfig.fromJson (Json.object [("count", Json.string "four")]) =
      Except.error (Error.MissingConfig "cpu.count") :=
  cpuConfig_wrong_type_missing (Json.object [("count", Json.string "four")])
    (Json.string "four") rfl (fun x h => Json.noConfusion h)

/-- Level spellings recognized by LogConfig::from. -/
def recognizedLevels : List String :=
  ["Debug", "debug", "Info", "info", "Warn", "warn", "Error", "error"]

/-- C8 counterexample: a log object whose level is the unrecognized string
"Trace" is accepted by LogConfig parsing (mapped to Debug), not rejected. -/
theorem logConfig_unrecognized_accepted_cex :
    LogConfig.fromJson (Json.object [("level", Json.string "Trace")]) =
      Except.ok { level := some LogLevel.Debug, path := none } := rfl

/-- C8 (amended): a level string other than a recognized spelling of Debug,
Info, Warn or Error is accepted and amended to the Debug level, as the source
comment states, rather than rejected. -/
theorem logConfig_unrecognized_debug (json : Json) (s : String)
    (h : (json.take_string "level").1 = some s)
    (hs : s ∉ recognizedLevels) :
    ∃ p, LogConfig.fromJson json =
      Except.ok { level := some LogLevel.Debug, path := p } := by
  unfold LogConfig.fromJson
  cases hts : json.take_string "level" with
  | mk o json1 =>
    rw [hts] at h
    simp only at h
    subst h
    cases htp : json1.take_string "path" with
    | mk p json2 =>
      refine ⟨p, ?_⟩
      simp [recognizedLevels] at hs
      simp [levelOfString, hs, htp]

/-- Witness for C8 at a log object with level "VERBOSE" and no path. -/
theorem logConfig_unrecognized_debug_witness :
    ∃ p, LogConfig.fromJson (Json.object [("level", Json.string "VERBOSE")]) =
      Except.ok { level := some LogLevel.Debug, path := p } :=
  logConfig_unrecognized_debug (Json.object [("level", Json.string "VERBOSE")])
    "VERBOSE" rfl (by decide)

/-- Concrete validated configuration: one vCPU, 128 MiB, no devices. -/
def cfg0 : VmConfig :=
  { cpu := { count := 1 }, memory := { size_mib := 128 }, device := [],
    os := { kernel := none, initrd := none, rootfs := none, cmdline := none },
    vmm := none }

/-- C1 counterexample: at a validated configuration, Vm::new returns Ok with
status Epoch, which is not Paused. -/
theorem vm_new_not_paused_cex :
    vmStatusOf (Vm.new 0 cfg0) = some VmStatus.Epoch ∧
    some VmStatus.Epoch ≠ some VmStatus.Paused :=
  ⟨rfl, by decide⟩

/-- C1 (amended): for every kernel handle and configuration, Vm::new returns
Ok and the status field of the returned virtual machine equals Epoch; no
Epoch-to-Paused transition happens during construction. -/
theorem vm_new_status_epoch (fd : Nat) (config : VmConfig) :
    vmStatusOf (Vm.new fd config) = some VmStatus.Epoch := rfl

/-- C2 counterexample: with memory.size_mib = 128 the constructed Vm holds the
empty guest memory, whose total mapped size is 0 bytes, not 128 MiB. -/
theorem vm_new_memory_unsized_cex :
    cfg0.memory.size_mib = 128 ∧
    vmMemoryOf (Vm.new 0 cfg0) = some GuestMemoryMmap.new ∧
    GuestMemoryMmap.new.totalBytes ≠ 128 * 1024 * 1024 :=
  ⟨rfl, rfl, by decide⟩

/-- C2 (amended): Vm::new stores the empty guest memory GuestMemoryMmap::new()
(zero mapped bytes) regardless of config.memory.size_mib, and never fails. -/
theorem vm_new_memory_empty (fd : Nat) (config : VmConfig) :
    Vm.new fd config =
      Except.ok { fd := fd, config := config,
                  memory := GuestMemoryMmap.new, status := VmStatus.Epoch } ∧
    GuestMemoryMmap.new.totalBytes = 0 :=
  ⟨rfl, rfl⟩

/-- C5: Vcpu::run is a todo placeholder: for every Vcpu it panics immediately
with "not yet implemented" and never returns normally, so the documented
Run-message protocol is not implemented. -/
theorem vcpu_run_panics (v : Vcpu) :
    Vcpu.run v = ThreadOutcome.panicked "not yet implemented" ∧
    Vcpu.run v ≠ ThreadOutcome.returned :=
  ⟨rfl, fun hc => ThreadOutcome.noConfusion hc⟩

/-- C9: whenever Vmm::new succeeds, the configuration stored inside the inner
Vm has its vmm field equal to none (the vmm section was moved out before
Vm::new ran) while the Vmm stores the original vmm section. -/
theorem vmm_new_moves_vmm (kvmNew : Except KvmErr Kvm)
    (createVm : Kvm → Except KvmErr Nat) (config : VmConfig) (v : Vmm)
    (h : Vmm.new kvmNew createVm config = Except.ok v) :
    v.vm.config.vmm = none ∧ v.config = config.vmm ∧
    v.vm.config = { config with vmm := none } := by
  unfold Vmm.new at h
  cases kvmNew with
  | error e => simp at h
  | ok kvm =>
    simp only at h
    cases hcv : createVm kvm with
    | error e => rw [hcv] at h; simp at h
    | ok fd =>
      rw [hcv] at h
      simp only [Vm.new] at h
      cases h
      exact ⟨rfl, rfl, rfl⟩

/-- Concrete configuration carrying a vmm section. -/
def cfg1 : VmConfig :=
  { cfg0 with
      vmm := some { log := some { level := some LogLevel.Info, path := none } } }

/-- Value produced by Vmm::new on cfg1 with concrete kernel-call outcomes. -/
def vmm1 : Vmm :=
  { config := cfg1.vmm, kvm := { sysFd := 7 },
    vm := { fd := 3, config := { cfg1 with vmm := none },
            memory := GuestMemoryMmap.new, status := VmStatus.Epoch } }

/-- Witness for C9 at cfg1 with successful kernel calls. -/
theorem vmm_new_moves_vmm_witness :
    vmm1.vm.config.vmm = none ∧ vmm1.config = cfg1.vmm ∧
    vmm1.vm.config = { cfg1 with vmm := none } :=
  vmm_new_moves_vmm (Except.ok { sysFd := 7 }) (fun _ => Except.ok 3) cfg1 vmm1 rfl

/-- Per-index specification of a successful VcpuManager::new loop run over an
arbitrary index list: the spawned threads carry the indices in order, the
recorded sender list equals the receiver endpoints held by the vCPUs of their
positions (one channel each way per vCPU), every vCPU holds the fd returned by
its create_vcpu call, and the event trace is create-then-spawn per index. -/
theorem newLoop_ok_spec (create_vcpu : Nat → Except KvmErr Nat) (l : List Nat) :
    ∀ (ctr : Nat) (ts : List ThreadHandle) (ss rs : List Nat)
      (evs : List Event) (ctrF : Nat),
      VcpuManager.newLoop create_vcpu l ctr = (Except.ok (ts, ss, rs), evs, ctrF) →
      ts.map (fun t => t.vcpu.id) = l ∧
      ts.map (fun t => t.vcpu.ch_in_recv) = ss ∧
      ts.map (fun t => t.vcpu.ch_out_send) = rs ∧
      (∀ t ∈ ts, create_vcpu t.vcpu.id = Except.ok t.vcpu.fd) ∧
      evs = l.flatMap (fun i => [Event.createVcpu i, Event.spawnThread i]) := by
  induction l with
  | nil =>
    intro ctr ts ss rs evs ctrF h
    simp only [VcpuManager.newLoop, Prod.mk.injEq, Except.ok.injEq] at h
    obtain ⟨⟨h1, h2, h3⟩, h4, h5⟩ := h
    subst h1
    subst h2
    subst h3
    subst h4
    simp
  | cons i rest ih =>
    intro ctr ts ss rs evs ctrF h
    simp only [VcpuManager.newLoop] at h
    cases hcv : create_vcpu i with
    | error e =>
      rw [hcv] at h
      simp at h
    | ok fd =>
      rw [hcv] at h
      simp only [channel, Vcpu.new] at h
      cases hrec : VcpuManager.newLoop create_vcpu rest (ctr + 1 + 1) with
      | mk res rest2 =>
        cases rest2 with
        | mk evs1 ctrF1 =>
          rw [hrec] at h
          cases res with
          | error e =>
            simp [Except.map] at h
          | ok trip =>
            obtain ⟨ts1, ss1, rs1⟩ := trip
            simp only [Except.map, Prod.mk.injEq, Except.ok.injEq] at h
            obtain ⟨⟨hts, hss, hrs⟩, hevs, hctr⟩ := h
            subst hts
            subst hss
            subst hrs
            subst hevs
            obtain ⟨g1, g2, g3, g4, g5⟩ :=
              ih (ctr + 1 + 1) ts1 ss1 rs1 evs1 ctrF1 hrec
            refine ⟨?_, ?_, ?_, ?_, ?_⟩
            · simp [g1]
            · simp [g2]
            · simp [g3]
            · intro t ht
              rcases List.mem_cons.mp ht with hh | hh
              · subst hh
                simpa using hcv
              · exact g4 t hh
            · simp [g5]

/-- C3: a successful VcpuManager::new over a cpu configuration with count = n
creates exactly n kernel vCPU handles at indices 0..n-1 in ascending order
(witnessed by the ordered event trace of create and spawn events), and for
every index k below n it records, all at position k, one thread join handle
whose vCPU has id k and the fd returned by the create call for k, one sender
wired to the control-channel receiver held by that vCPU, and one receiver
wired to the reply-channel sender held by that vCPU; the index assignment is dense with no gaps. -/
theorem vcpuManager_new_dense (create_vcpu : Nat → Except KvmErr Nat)
    (config : CpuConfig) (m : VcpuManager) (evs : List Event)
    (h : VcpuManager.new create_vcpu config = (Except.ok m, evs)) :
    m.threads.length = config.count ∧
    m.chs_in_send.length = config.count ∧
    m.chs_out_recv.length = config.count ∧
    evs = (List.range config.count).flatMap
      (fun i => [Event.createVcpu i, Event.spawnThread i]) ∧
    (∀ k, k < config.count →
      ∃ t, m.threads[k]? = some t ∧ t.vcpu.id = k ∧
        create_vcpu k = Except.ok t.vcpu.fd ∧
        m.chs_in_send[k]? = some t.vcpu.ch_in_recv ∧
        m.chs_out_recv[k]? = some t.vcpu.ch_out_send) := by
  unfold VcpuManager.new at h
  cases hl : VcpuManager.newLoop create_vcpu (List.range config.count) 0 with
  | mk res rest2 =>
    cases rest2 with
    | mk evs1 ctrF =>
      rw [hl] at h
      cases res with
      | error e => simp at h
      | ok trip =>
        obtain ⟨ts, ss, rs⟩ := trip
        simp only [Prod.mk.injEq, Except.ok.injEq] at h
        obtain ⟨hm, hevs⟩ := h
        subst hm
        subst hevs
        obtain ⟨h1, h2, h3, h4, h5⟩ :=
          newLoop_ok_spec create_vcpu (List.range config.count) 0 ts ss rs evs1 ctrF hl
        have hts_len : ts.length = config.count := by
          have := congrArg List.length h1
          simpa using this
        have hss_len : ss.length = config.count := by
          have := congrArg List.length h2
          simp at this
          omega
        have hrs_len : rs.length = config.count := by
          have := congrArg List.length h3
          simp at this
          omega
        refine ⟨hts_len, hss_len, hrs_len, h5, ?_⟩
        intro k hk
        have hk1 : k < ts.length := by omega
        refine ⟨ts[k], List.getElem?_eq_getElem hk1, ?_, ?_, ?_, ?_⟩
        · have hmap : (ts.map (fun t => t.vcpu.id))[k]? = some k := by
            rw [h1]
            exact List.getElem?_range hk
          rw [List.getElem?_map, List.getElem?_eq_getElem hk1] at hmap
          simpa using hmap
        · have hid : ts[k].vcpu.id = k := by
            have hmap : (ts.map (fun t => t.vcpu.id))[k]? = some k := by
              rw [h1]
              exact List.getElem?_range hk
            rw [List.getElem?_map, List.getElem?_eq_getElem hk1] at hmap
            simpa using hmap
          have hcv := h4 ts[k] (List.getElem_mem hk1)
          rwa [hid] at hcv
        · rw [← h2, List.getElem?_map, List.getElem?_eq_getElem hk1]
          rfl
        · rw [← h3, List.getElem?_map, List.getElem?_eq_getElem hk1]
          rfl

/-- All-successful create_vcpu oracle for the C3 witness: index i gets fd 100 + i. -/
def cvOk2 : Nat → Except KvmErr Nat :=
  fun i => Except.ok (100 + i)

/-- Manager produced by VcpuManager.new cvOk2 for two vCPUs. -/
def mgr2 : VcpuManager :=
  { config := { count := 2 },
    threads := [{ vcpu := { id := 0, fd := 100, ch_in_recv := 0, ch_out_send := 1 } },
                { vcpu := { id := 1, fd := 101, ch_in_recv := 2, ch_out_send := 3 } }],
    chs_in_send := [0, 2],
    chs_out_recv := [1, 3] }

/-- Event trace produced by VcpuManager.new cvOk2 for two vCPUs. -/
def evs2 : List Event :=
  [Event.createVcpu 0, Event.spawnThread 0, Event.createVcpu 1, Event.spawnThread 1]

/-- Witness for C3 at two vCPUs with all create calls succeeding. -/
theorem vcpuManager_new_dense_witness :
    mgr2.threads.length = 2 ∧
    mgr2.chs_in_send.length = 2 ∧
    mgr2.chs_out_recv.length = 2 ∧
    evs2 = (List.range 2).flatMap
      (fun i => [Event.createVcpu i, Event.spawnThread i]) ∧
    (∀ k, k < 2 →
      ∃ t, mgr2.threads[k]? = some t ∧ t.vcpu.id = k ∧
        cvOk2 k = Except.ok t.vcpu.fd ∧
        mgr2.chs_in_send[k]? = some t.vcpu.ch_in_recv ∧
        mgr2.chs_out_recv[k]? = some t.vcpu.ch_out_send) :=
  vcpuManager_new_dense cvOk2 { count := 2 } mgr2 evs2 rfl

/-- Error-path specification of the VcpuManager::new loop: if every index in
the leading list l1 has a successful create_vcpu call and index i fails with e, the
loop on l1 ++ i :: l2 returns the converted IoctlError and a trace holding
exactly one create and one spawn event per index of l1, in order, followed by
the failing create event; nothing is performed for the suffix l2 and no thread
is joined. -/
theorem newLoop_err_spec (create_vcpu : Nat → Except KvmErr Nat) (l1 : List Nat) :
    ∀ (i : Nat) (l2 : List Nat) (e : KvmErr) (ctr : Nat),
      (∀ j ∈ l1, ∃ fd, create_vcpu j = Except.ok fd) →
      create_vcpu i = Except.error e →
      ∃ c, VcpuManager.newLoop create_vcpu (l1 ++ i :: l2) ctr =
        (Except.error (Error.fromKvm e),
         l1.flatMap (fun j => [Event.createVcpu j, Event.spawnThread j]) ++
           [Event.createVcpu i],
         c) := by
  induction l1 with
  | nil =>
    intro i l2 e ctr hok herr
    refine ⟨ctr, ?_⟩
    simp [VcpuManager.newLoop, herr]
  | cons j rest ih =>
    intro i l2 e ctr hok herr
    obtain ⟨fd, hfd⟩ := hok j (List.mem_cons_self j rest)
    have hok1 : ∀ a ∈ rest, ∃ fd, create_vcpu a = Except.ok fd :=
      fun a ha => hok a (List.mem_cons_of_mem j ha)
    obtain ⟨c, hc⟩ := ih i l2 e (ctr + 1 + 1) hok1 herr
    refine ⟨c, ?_⟩
    simp only [List.cons_append, VcpuManager.newLoop, hfd, channel, Vcpu.new]
    simp only [List.append_eq]
    rw [hc]
    simp [Except.map]

/-- C4: if the first failing create_vcpu call is at index i (all smaller
indices succeed), VcpuManager::new returns Err(IoctlError(errno, message))
built from that call; its event trace is exactly one create and one spawn
event per index below i, in ascending order, followed by the failing create
event, so no handle is created for any index above i and no already-spawned
thread is stopped or joined. -/
theorem vcpuManager_new_fail (create_vcpu : Nat → Except KvmErr Nat)
    (config : CpuConfig) (i : Nat) (e : KvmErr)
    (hi : i < config.count)
    (hok : ∀ j, j < i → ∃ fd, create_vcpu j = Except.ok fd)
    (herr : create_vcpu i = Except.error e) :
    (VcpuManager.new create_vcpu config).1 =
      Except.error (Error.IoctlError e.errno e.msg) ∧
    (VcpuManager.new create_vcpu config).2 =
      (List.range i).flatMap (fun j => [Event.createVcpu j, Event.spawnThread j]) ++
        [Event.createVcpu i] ∧
    (∀ j, i < j → Event.createVcpu j ∉ (VcpuManager.new create_vcpu config).2) ∧
    (∀ j, Event.joinThread j ∉ (VcpuManager.new create_vcpu config).2) := by
  obtain ⟨r, hr⟩ : ∃ r, config.count = i + (r + 1) := ⟨config.count - i - 1, by omega⟩
  have hsplit : ∃ l2, List.range config.count = List.range i ++ i :: l2 := by
    refine ⟨(List.range r).map (fun x => i + (x + 1)), ?_⟩
    rw [hr, List.range_add, List.range_succ_eq_map]
    simp [List.map_map]
  obtain ⟨l2, hsplit⟩ := hsplit
  have hok1 : ∀ j ∈ List.range i, ∃ fd, create_vcpu j = Except.ok fd :=
    fun j hj => hok j (List.mem_range.mp hj)
  obtain ⟨c, hc⟩ := newLoop_err_spec create_vcpu (List.range i) i l2 e 0 hok1 herr
  have hnew : VcpuManager.new create_vcpu config =
      (Except.error (Error.fromKvm e),
       (List.range i).flatMap (fun j => [Event.createVcpu j, Event.spawnThread j]) ++
         [Event.createVcpu i]) := by
    unfold VcpuManager.new
    rw [hsplit, hc]
  rw [hnew]
  refine ⟨rfl, rfl, ?_, ?_⟩
  · intro j hj hmem
    simp [List.mem_append, List.mem_flatMap, List.mem_range] at hmem
    omega
  · intro j hmem
    simp [List.mem_append, List.mem_flatMap, List.mem_range] at hmem

/-- Oracle for the C4 witness: index 0 succeeds with fd 100, every later
index fails with errno 9. -/
def cvFail : Nat → Except KvmErr Nat :=
  fun j => if j = 0 then Except.ok 100
           else Except.error { errno := 9, msg := "bad fd" }

/-- Witness for C4 at three requested vCPUs whose create call fails first at
index 1. -/
theorem vcpuManager_new_fail_witness :
    (VcpuManager.new cvFail { count := 3 }).1 =
      Except.error (Error.IoctlError 9 "bad fd") ∧
    (VcpuManager.new cvFail { count := 3 }).2 =
      (List.range 1).flatMap (fun j => [Event.createVcpu j, Event.spawnThread j]) ++
        [Event.createVcpu 1] ∧
    (∀ j, 1 < j → Event.createVcpu j ∉ (VcpuManager.new cvFail { count := 3 }).2) ∧
    (∀ j, Event.joinThread j ∉ (VcpuManager.new cvFail { count := 3 }).2) :=
  vcpuManager_new_fail cvFail { count := 3 } 1 { errno := 9, msg := "bad fd" }
    (by decide)
    (fun j hj => ⟨100, by simp [cvFail, Nat.lt_one_iff.mp hj]⟩)
    rfl

end Shuairan
